import Mathlib

set_option linter.unusedVariables false

/-!
Shallow embedding of the client-side request-routing core of `ton-grpc`:
the dynamic discovery stream (`tonlibjson-tokio/src/discover.rs`), the
shared mutual-exclusion service adapter (`tonlibjson-client/src/shared.rs`)
and the request/response correlator (`tonlibjson-client/src/request.rs`),
together with theorems settling the behavioural claims about them.

Modelling conventions:
- `anyhow::Error` and the other error types are abstract type parameters.
- A `HashSet<Liteserver>` snapshot is modelled as a duplicate-free `List K`
  over an abstract key type `K` with decidable equality (the list order
  stands for the unspecified hash-iteration order; `Liteserver` equality is
  identity-key equality, so a node is just its key here).
- Async effects are modelled by passing the outcome of each awaited
  sub-call in as data (`Except`-valued inputs), and the temporal claims are
  settled on explicit traces of the atomic steps the code performs.
-/

/-- Membership change event, mirroring `tower::discover::Change` as it is
used in `discover.rs`: `Insert` carries the key together with the freshly
built service handle, `Remove` carries only the key. -/
inductive Change (K S : Type) where
  | Insert (key : K) (service : S)
  | Remove (key : K)
deriving DecidableEq, Repr

/-- Readiness state of an asynchronous poll, mirroring `std::task::Poll`. -/
inductive Poll (α : Type) where
  | Ready (value : α)
  | Pending
deriving DecidableEq, Repr

/-- Outcome of one interaction with the client factory for one inserted
node, mirroring `factory.ready().await?.call(config.with_liteserver(ls)).await`
in `discover.rs` lines 54-56: `Except.error e` models a failing
`ready()` (whose error the `?` propagates out of the `try_stream!` as a
stream-level error), `Except.ok none` models a failing `call(..)` (the
`if let Ok(client)` silently skips the node), and `Except.ok (some s)`
models a successfully constructed client handle `s`. -/
abbrev FactoryOutcome (E S : Type) := Except E (Option S)

/-- The insertion loop of one discovery tick (`discover.rs` lines 51-57):
walk the inserted keys in order; a node whose factory `call` fails is
skipped with no event; a factory readiness failure aborts the loop at that
point (events already produced stand, and the error is reported).
Returns the `Insert` events produced together with the aborting error,
if any. -/
def DynamicServiceStream.insert_phase {K S E : Type} (factory : K → FactoryOutcome E S) :
    List K → List (Change K S) × Option E
  | [] => ([], none)
  | k :: ks =>
    match factory k with
    | Except.error e => ([], some e)
    | Except.ok none => DynamicServiceStream.insert_phase factory ks
    | Except.ok (some s) =>
      let rest := DynamicServiceStream.insert_phase factory ks
      (Change.Insert k s :: rest.1, rest.2)

/-- One discovery tick of the `try_stream!` loop in
`DynamicServiceStream::new` (`discover.rs` lines 34-60). Inputs: the
tracked snapshot `liteservers` from the previous tick and the outcome
`fetch` of `load_ton_config` (`Except.error e` models a failed fetch, whose
error the `?` propagates as the stream's final item). On success the tick
diffs the snapshots, emits one `Remove` per removed key, then runs the
insertion loop, and finally replaces the tracked snapshot by the complete
new snapshot (`liteservers = liteserver_new.clone()`, line 59) - the
replacement is skipped when the tick aborted early. Returns the events
emitted by the tick, the tracked snapshot after the tick, and the
stream-terminating error, if any. -/
def DynamicServiceStream.tick {K S E : Type} [DecidableEq K]
    (factory : K → FactoryOutcome E S) (liteservers : List K)
    (fetch : Except E (List K)) : List (Change K S) × List K × Option E :=
  match fetch with
  | Except.error e => ([], liteservers, some e)
  | Except.ok liteserver_new =>
    let liteservers_remove := liteservers.filter fun k => decide (k ∉ liteserver_new)
    let liteservers_insert := liteserver_new.filter fun k => decide (k ∉ liteservers)
    let ins := DynamicServiceStream.insert_phase factory liteservers_insert
    match ins.2 with
    | some e => (liteservers_remove.map Change.Remove ++ ins.1, liteservers, some e)
    | none => (liteservers_remove.map Change.Remove ++ ins.1, liteserver_new, none)

/-- The discovery loop driven over a finite prefix of its (conceptually
infinite) tick sequence: each tick consumes the next fetch outcome, its
events are appended after the previous ticks' events, and a tick that ends
with an error terminates the stream - later fetch outcomes are never
consumed. -/
def DynamicServiceStream.run_ticks {K S E : Type} [DecidableEq K]
    (factory : K → FactoryOutcome E S) (liteservers : List K) :
    List (Except E (List K)) → List (Change K S) × List K × Option E
  | [] => ([], liteservers, none)
  | fetch :: rest =>
    let t := DynamicServiceStream.tick factory liteservers fetch
    match t.2.2 with
    | some e => (t.1, t.2.1, some e)
    | none =>
      let r := DynamicServiceStream.run_ticks factory t.2.1 rest
      (t.1 ++ r.1, r.2.1, r.2.2)

/-- The public `Stream::poll_next` of `DynamicServiceStream`
(`discover.rs` lines 72-84): a `Ready(Some(Ok(change)))` from the inner
generator is forwarded (rebuilding the change), and every other inner
result - an error item, end-of-stream, or pending - falls into the
wildcard arm and becomes `Pending`. -/
def DynamicServiceStream.poll_next {K S E : Type}
    (inner : Poll (Option (Except E (Change K S)))) :
    Poll (Option (Except E (Change K S))) :=
  match inner with
  | Poll.Ready (some (Except.ok (Change.Insert k client))) =>
      Poll.Ready (some (Except.ok (Change.Insert k client)))
  | Poll.Ready (some (Except.ok (Change.Remove k))) =>
      Poll.Ready (some (Except.ok (Change.Remove k)))
  | _ => Poll.Pending

/-- State of the `tokio::sync::RwLock` protecting the wrapped service in
`SharedService` (`shared.rs` line 21), as seen by one `try_write` attempt:
either no other caller currently holds access, or some other caller does
(a call, or a `load` read, is in flight). -/
inductive LockState where
  | free
  | held
deriving DecidableEq, Repr

/-- Observable outcome of one `SharedService::poll_ready` invocation:
the returned poll result, whether the wrapped service's own `poll_ready`
was invoked, and whether the calling task's waker was woken to arrange a
retry. -/
structure PollReadyOutcome (E : Type) where
  result : Poll (Except E Unit)
  inner_polled : Bool
  woke_waker : Bool

/-- `SharedService::poll_ready` (`shared.rs` lines 44-55): `try_write` on
the shared lock; on success delegate to the wrapped service's `poll_ready`
(whose outcome is the input `inner_ready`) and return its result; on
failure wake the caller's waker by reference and return `Pending` without
touching the wrapped service. -/
def SharedService.poll_ready {E : Type} (lock : LockState)
    (inner_ready : Poll (Except E Unit)) : PollReadyOutcome E :=
  match lock with
  | LockState.free => { result := inner_ready, inner_polled := true, woke_waker := false }
  | LockState.held => { result := Poll.Pending, inner_polled := false, woke_waker := true }

/-- Atomic steps of the future returned by `SharedService::call`
(`shared.rs` lines 58-70), in the order the `async move` block performs
them: await the write lock, invoke the wrapped service's `call` under the
lock, drop the guard, then await the wrapped call's future. -/
inductive CallStep (Req : Type) where
  | acquire_write
  | invoke_inner (req : Req)
  | release_write
  | await_future
deriving DecidableEq, Repr

/-- The step trace of `SharedService::call` on one request: the straight
line `let mut guard = client.write().await; let r = guard.call(req);
drop(guard); r.await`. -/
def SharedService.call_trace {Req : Type} (req : Req) : List (CallStep Req) :=
  [CallStep.acquire_write, CallStep.invoke_inner req,
   CallStep.release_write, CallStep.await_future]

/-- Number of write-lock acquisitions in a step trace. -/
def acquire_count {Req : Type} (t : List (CallStep Req)) : Nat :=
  t.countP fun st => match st with
    | CallStep.acquire_write => true
    | _ => false

/-- Number of write-lock releases in a step trace. -/
def release_count {Req : Type} (t : List (CallStep Req)) : Nat :=
  t.countP fun st => match st with
    | CallStep.release_write => true
    | _ => false

/-- Whether the write lock is held after the first `n` steps of a trace
have run: more acquisitions than releases among them. -/
def write_lock_held_after {Req : Type} (t : List (CallStep Req)) (n : Nat) : Bool :=
  release_count (t.take n) < acquire_count (t.take n)

/-- JSON value, mirroring `serde_json::Value`; an object keeps its fields
in serialization order. -/
inductive Json where
  | null
  | bool (b : Bool)
  | num (n : Int)
  | str (s : String)
  | arr (elems : List Json)
  | obj (fields : List (String × Json))
deriving Repr

/-- Escaping of one character inside a JSON string literal (quotation mark
and reverse solidus; other escapes do not occur in the strings the claims
mention). -/
def escape_char (c : Char) : String :=
  if c = '"' then "\\\"" else if c = '\\' then "\\\\" else String.singleton c

/-- Escaping of a whole string for a JSON string literal. -/
def escape_string (s : String) : String :=
  String.join (s.data.map escape_char)

mutual

/-- Compact rendering of a JSON value, as `serde_json::to_string`. -/
def Json.render : Json → String
  | Json.null => "null"
  | Json.bool true => "true"
  | Json.bool false => "false"
  | Json.num n => toString n
  | Json.str s => "\"" ++ escape_string s ++ "\""
  | Json.arr elems => "[" ++ Json.render_elems elems ++ "]"
  | Json.obj fields => "\x7b" ++ Json.render_fields fields ++ "\x7d"

/-- Comma-separated rendering of array elements. -/
def Json.render_elems : List Json → String
  | [] => ""
  | [x] => Json.render x
  | x :: y :: rest => Json.render x ++ "," ++ Json.render_elems (y :: rest)

/-- Comma-separated rendering of object fields. -/
def Json.render_fields : List (String × Json) → String
  | [] => ""
  | [(k, v)] => "\"" ++ escape_string k ++ "\":" ++ Json.render v
  | (k, v) :: y :: rest =>
      "\"" ++ escape_string k ++ "\":" ++ Json.render v ++ "," ++ Json.render_fields (y :: rest)

end

/-- Lowercase hexadecimal digit for a value below 16. -/
def hex_digit (n : Nat) : Char :=
  if n < 10 then Char.ofNat (48 + n) else Char.ofNat (87 + n)

/-- Big-endian, zero-padded rendering of `n` in exactly `len` hexadecimal
digits. -/
def to_hex : Nat → Nat → String
  | 0, _ => ""
  | len + 1, n => to_hex len (n / 16) ++ String.singleton (hex_digit (n % 16))

/-- The hyphenated lowercase form in which the `uuid` crate serializes a
128-bit UUID value (8-4-4-4-12 hexadecimal digits). -/
def uuid_to_string (id : Nat) : String :=
  to_hex 8 (id / 2 ^ 96) ++ "-" ++ to_hex 4 (id / 2 ^ 80 % 2 ^ 16) ++ "-" ++
  to_hex 4 (id / 2 ^ 64 % 2 ^ 16) ++ "-" ++ to_hex 4 (id / 2 ^ 48 % 2 ^ 16) ++ "-" ++
  to_hex 12 (id % 2 ^ 48)

/-- `RequestId` (`request.rs` line 40): a `Uuid`, a 128-bit value. -/
abbrev RequestId := Nat

/-- The `Request` struct (`request.rs` lines 42-52): the correlation id
(serialized under the reserved name `@extra`), the advisory timeout
(`#[serde(skip_serializing)]`, local-only), and the payload value
(`#[serde(flatten)]`). -/
structure Request where
  id : RequestId
  timeout : Nat
  data : Json

/-- Serde serialization of a `Request` as the derive on `request.rs` lines
42-52 produces it: one flat object holding the `@extra` id field first and
then the payload's own fields at the same top level; the timeout is
skipped entirely. Flattening requires the payload to be an object -
serde reports an error, modelled `none`, for any other payload shape. -/
def Request.serialize (r : Request) : Option Json :=
  match r.data with
  | Json.obj fields => some (Json.obj (("@extra", Json.str (uuid_to_string r.id)) :: fields))
  | _ => none

/-- The stream of 128-bit values that the process's randomness source
hands to successive `Uuid::new_v4()` calls: `supply n` is the `n`-th draw.
Nothing in `request.rs` constrains or compares the draws. -/
abbrev UuidSupply := Nat → Nat

/-- `Uuid::new_v4()` at the `n`-th draw of the source: some 128-bit
value. -/
def new_v4 (supply : UuidSupply) (n : Nat) : RequestId :=
  supply n % 2 ^ 128

/-- `Request::with_timeout` (`request.rs` lines 68-74): serialize the
payload (the outcome of `serde_json::to_value` is the input `dataVal`),
draw a fresh id - this being the `n`-th `new_v4` call of the process -
and build the request. -/
def Request.with_timeout {E : Type} (supply : UuidSupply) (n : Nat)
    (dataVal : Except E Json) (timeout : Nat) : Except E Request :=
  match dataVal with
  | Except.error e => Except.error e
  | Except.ok d => Except.ok ⟨new_v4 supply n, timeout, d⟩

/-- `Request::with_new_id` (`request.rs` lines 76-82): same payload and
timeout, the id replaced by a fresh draw (the `n`-th of the process). -/
def Request.with_new_id (supply : UuidSupply) (n : Nat) (r : Request) : Request :=
  ⟨new_v4 supply n, r.timeout, r.data⟩

/-- The requests built by successive `Request::with_timeout` calls with
already-serialized payloads `(data, timeout)`, the call for the `i`-th
payload consuming draw `n + i` of the randomness source. -/
def build_requests (supply : UuidSupply) (n : Nat) : List (Json × Nat) → List Request
  | [] => []
  | (d, t) :: rest =>
    ⟨new_v4 supply n, t, d⟩ :: build_requests supply (n + 1) rest

/-- Execution stages of `Requestable::call` (`request.rs` lines 23-37). -/
inductive Stage where
  | build_request
  | await_ready
  | submit
  | await_response
  | deser_response
deriving DecidableEq, Repr

/-- The complete ordered stage list of one round trip. -/
def round_trip_stages : List Stage :=
  [Stage.build_request, Stage.await_ready, Stage.submit,
   Stage.await_response, Stage.deser_response]

/-- `Requestable::call` (`request.rs` lines 23-37): build the request
(`self.into_request()` runs first, though the `?` propagating its error
sits after the readiness await), await `client.ready()` propagating its
error, propagate the request-build error, submit via `call` and await the
raw JSON response propagating its error, then deserialize the JSON into
the payload type's declared response shape propagating its error. The
outcome is returned together with the list of stages that ran, in
execution order. -/
def requestable_call {E R : Type} (into_request : Except E Request)
    (ready : Except E Unit) (call : Request → Except E Json)
    (deser : Json → Except E R) : Except E R × List Stage :=
  match ready with
  | Except.error e => (Except.error e, [Stage.build_request, Stage.await_ready])
  | Except.ok _ =>
    match into_request with
    | Except.error e => (Except.error e, [Stage.build_request, Stage.await_ready])
    | Except.ok req =>
      match call req with
      | Except.error e =>
        (Except.error e,
         [Stage.build_request, Stage.await_ready, Stage.submit, Stage.await_response])
      | Except.ok json =>
        match deser json with
        | Except.error e => (Except.error e, round_trip_stages)
        | Except.ok resp => (Except.ok resp, round_trip_stages)

/-- An `Insert` event produced by the insertion loop always comes from a
listed key whose factory call succeeded with exactly that handle. -/
theorem insert_phase_mem_imp {K S E : Type} (factory : K → FactoryOutcome E S)
    {l : List K} {k : K} {s : S}
    (h : Change.Insert k s ∈ (DynamicServiceStream.insert_phase factory l).1) :
    k ∈ l ∧ factory k = Except.ok (some s) := by
  induction l with
  | nil => simp [DynamicServiceStream.insert_phase] at h
  | cons a as ih =>
    cases hf : factory a with
    | error e => simp [DynamicServiceStream.insert_phase, hf] at h
    | ok o =>
      cases o with
      | none =>
        rw [DynamicServiceStream.insert_phase, hf] at h
        rcases ih h with ⟨hm, hfk⟩
        exact ⟨List.mem_cons_of_mem a hm, hfk⟩
      | some s0 =>
        rw [DynamicServiceStream.insert_phase, hf] at h
        rcases List.mem_cons.mp h with heq | hm
        · injection heq with hk hs
          subst hk; subst hs
          exact ⟨List.mem_cons_self .., hf⟩
        · rcases ih hm with ⟨hm2, hfk⟩
          exact ⟨List.mem_cons_of_mem a hm2, hfk⟩

/-- When no factory readiness error occurs on the listed keys, the
insertion loop runs to completion. -/
theorem insert_phase_err_none {K S E : Type} (factory : K → FactoryOutcome E S)
    {l : List K} (hready : ∀ k ∈ l, ∀ e : E, factory k ≠ Except.error e) :
    (DynamicServiceStream.insert_phase factory l).2 = none := by
  induction l with
  | nil => rfl
  | cons a as ih =>
    cases hf : factory a with
    | error e => exact absurd hf (hready a (List.mem_cons_self a as) e)
    | ok o =>
      have ih2 := ih fun k hk e => hready k (List.mem_cons_of_mem a hk) e
      cases o with
      | none => rw [DynamicServiceStream.insert_phase, hf]; exact ih2
      | some s0 => rw [DynamicServiceStream.insert_phase, hf]; exact ih2

/-- Characterisation of the insertion loop's events when no readiness
error occurs: one `Insert` per listed key whose construction succeeded. -/
theorem insert_phase_mem_iff {K S E : Type} (factory : K → FactoryOutcome E S)
    {l : List K} (hready : ∀ k ∈ l, ∀ e : E, factory k ≠ Except.error e)
    (k : K) (s : S) :
    Change.Insert k s ∈ (DynamicServiceStream.insert_phase factory l).1
      ↔ (k ∈ l ∧ factory k = Except.ok (some s)) := by
  constructor
  · exact insert_phase_mem_imp factory
  · rintro ⟨hm, hfk⟩
    induction l with
    | nil => simp at hm
    | cons a as ih =>
      have ih2 := ih fun x hx e => hready x (List.mem_cons_of_mem a hx) e
      rcases List.mem_cons.mp hm with heq | hmem
      · subst heq
        rw [DynamicServiceStream.insert_phase, hfk]
        exact List.mem_cons_self ..
      · cases hf : factory a with
        | error e => exact absurd hf (hready a (List.mem_cons_self a as) e)
        | ok o =>
          cases o with
          | none => rw [DynamicServiceStream.insert_phase, hf]; exact ih2 hmem
          | some s0 =>
            rw [DynamicServiceStream.insert_phase, hf]
            exact List.mem_cons_of_mem _ (ih2 hmem)

/-- The insertion loop only ever emits `Insert` events. -/
theorem insert_phase_shape {K S E : Type} (factory : K → FactoryOutcome E S)
    (l : List K) :
    ∀ ev ∈ (DynamicServiceStream.insert_phase factory l).1, ∃ k s, ev = Change.Insert k s := by
  induction l with
  | nil => simp [DynamicServiceStream.insert_phase]
  | cons a as ih =>
    intro ev hev
    cases hf : factory a with
    | error e => rw [DynamicServiceStream.insert_phase, hf] at hev; simp at hev
    | ok o =>
      cases o with
      | none => rw [DynamicServiceStream.insert_phase, hf] at hev; exact ih ev hev
      | some s0 =>
        rw [DynamicServiceStream.insert_phase, hf] at hev
        rcases List.mem_cons.mp hev with heq | hm
        · exact ⟨a, s0, heq⟩
        · exact ih ev hm

/-- Distinct listed keys produce distinct events: the insertion loop's
output is duplicate-free whenever its input key list is. -/
theorem insert_phase_nodup {K S E : Type} (factory : K → FactoryOutcome E S)
    {l : List K} (hl : l.Nodup) :
    (DynamicServiceStream.insert_phase factory l).1.Nodup := by
  induction l with
  | nil => simp [DynamicServiceStream.insert_phase]
  | cons a as ih =>
    rcases List.nodup_cons.mp hl with ⟨ha, has⟩
    have ih2 := ih has
    cases hf : factory a with
    | error e => rw [DynamicServiceStream.insert_phase, hf]; simp
    | ok o =>
      cases o with
      | none => rw [DynamicServiceStream.insert_phase, hf]; exact ih2
      | some s0 =>
        rw [DynamicServiceStream.insert_phase, hf]
        refine List.nodup_cons.mpr ⟨fun hmem => ?_, ih2⟩
        exact ha (insert_phase_mem_imp factory hmem).1

/-- Unfolding of a successfully fetched tick whose insertion loop does not
abort: removals computed from the old snapshot, then the insertion events,
and the tracked snapshot replaced by the new snapshot. -/
theorem tick_ok_eq {K S E : Type} [DecidableEq K]
    (factory : K → FactoryOutcome E S) (prev snew : List K)
    (herr : (DynamicServiceStream.insert_phase factory
      (snew.filter fun k => decide (k ∉ prev))).2 = none) :
    DynamicServiceStream.tick factory prev (Except.ok snew)
      = ((prev.filter fun k => decide (k ∉ snew)).map Change.Remove
          ++ (DynamicServiceStream.insert_phase factory
              (snew.filter fun k => decide (k ∉ prev))).1,
         snew, none) := by
  unfold DynamicServiceStream.tick
  dsimp only
  rw [herr]

/-- C6: a discovery tick whose configuration fetch fails emits no
membership-change events and retains the previously tracked snapshot
unchanged, and after the failure the stream yields no further items: the
remaining tick inputs are never consumed and contribute no events, the
error being reported to the stream's owner. -/
theorem c6_fetch_failure_terminates_quietly {K S E : Type} [DecidableEq K]
    (factory : K → FactoryOutcome E S) (prev : List K) (e : E)
    (rest : List (Except E (List K))) :
    DynamicServiceStream.tick factory prev (Except.error e)
      = (([] : List (Change K S)), prev, some e) ∧
    DynamicServiceStream.run_ticks factory prev (Except.error e :: rest)
      = (([] : List (Change K S)), prev, some e) := by
  refine ⟨rfl, ?_⟩
  simp [DynamicServiceStream.run_ticks, DynamicServiceStream.tick]

/-- C7: the public `poll_next` turns an inner error item and inner
end-of-stream into `Pending`, and consequently never returns an error item
and never signals termination, whatever the inner generator produced. -/
theorem c7_poll_next_swallows_errors_and_end {K S E : Type} :
    (∀ e : E, DynamicServiceStream.poll_next (K := K) (S := S)
        (Poll.Ready (some (Except.error e))) = Poll.Pending) ∧
    DynamicServiceStream.poll_next (K := K) (S := S) (E := E)
        (Poll.Ready none) = Poll.Pending ∧
    (∀ inner : Poll (Option (Except E (Change K S))),
      (∀ e : E, DynamicServiceStream.poll_next inner ≠ Poll.Ready (some (Except.error e))) ∧
      DynamicServiceStream.poll_next inner ≠ Poll.Ready none) := by
  refine ⟨fun e => rfl, rfl, fun inner => ?_⟩
  rcases inner with v | _
  · rcases v with _ | x
    · exact ⟨fun e => by simp [DynamicServiceStream.poll_next], by simp [DynamicServiceStream.poll_next]⟩
    · rcases x with e | c
      · exact ⟨fun e => by simp [DynamicServiceStream.poll_next], by simp [DynamicServiceStream.poll_next]⟩
      · rcases c with ⟨k, s⟩ | k
        · exact ⟨fun e => by simp [DynamicServiceStream.poll_next], by simp [DynamicServiceStream.poll_next]⟩
        · exact ⟨fun e => by simp [DynamicServiceStream.poll_next], by simp [DynamicServiceStream.poll_next]⟩
  · exact ⟨fun e => by simp [DynamicServiceStream.poll_next], by simp [DynamicServiceStream.poll_next]⟩

/-- C1: for a successfully fetched tick (with duplicate-free snapshots, as
`HashSet` iteration guarantees, and no factory readiness failure), the
emitted events are exactly one `Remove` per node of the old snapshot absent
from the new one and one `Insert` per node of the new snapshot absent from
the old one whose construction succeeded; nodes in both snapshots get no
event, there are no duplicate events, all removals precede all insertions,
and all of this tick's events precede all events of later ticks. -/
theorem c1_tick_edit_script {K S E : Type} [DecidableEq K]
    (factory : K → FactoryOutcome E S) (prev snew : List K)
    (hprev : prev.Nodup) (hnew : snew.Nodup)
    (hready : ∀ k ∈ snew, ∀ e : E, factory k ≠ Except.error e) :
    (DynamicServiceStream.tick factory prev (Except.ok snew)).2.2 = none ∧
    (∀ k : K, Change.Remove k ∈ (DynamicServiceStream.tick factory prev (Except.ok snew)).1
        ↔ (k ∈ prev ∧ k ∉ snew)) ∧
    (∀ (k : K) (s : S),
      Change.Insert k s ∈ (DynamicServiceStream.tick factory prev (Except.ok snew)).1
        ↔ (k ∈ snew ∧ k ∉ prev ∧ factory k = Except.ok (some s))) ∧
    (DynamicServiceStream.tick factory prev (Except.ok snew)).1.Nodup ∧
    (∃ removals insertions,
      (DynamicServiceStream.tick factory prev (Except.ok snew)).1 = removals ++ insertions ∧
      (∀ ev ∈ removals, ∃ k, ev = Change.Remove k) ∧
      (∀ ev ∈ insertions, ∃ k s, ev = Change.Insert k s)) ∧
    (∀ rest, (DynamicServiceStream.run_ticks factory prev (Except.ok snew :: rest)).1
        = (DynamicServiceStream.tick factory prev (Except.ok snew)).1
          ++ (DynamicServiceStream.run_ticks factory snew rest).1) := by
  have hreadyIns : ∀ k ∈ (snew.filter fun k => decide (k ∉ prev)), ∀ e : E,
      factory k ≠ Except.error e :=
    fun k hk e => hready k (List.mem_of_mem_filter hk) e
  have herr := insert_phase_err_none factory hreadyIns
  have hT := tick_ok_eq factory prev snew herr
  rw [hT]
  refine ⟨rfl, ?_, ?_, ?_, ?_, ?_⟩
  · intro k
    constructor
    · intro hk
      rcases List.mem_append.mp hk with hmap | hins
      · rcases List.mem_map.mp hmap with ⟨a, ha, heq⟩
        injection heq with hka
        subst hka
        have hmem := List.mem_filter.mp ha
        exact ⟨hmem.1, by simpa using hmem.2⟩
      · rcases insert_phase_shape factory _ _ hins with ⟨a, s, heq⟩
        simp at heq
    · rintro ⟨h1, h2⟩
      exact List.mem_append.mpr
        (Or.inl (List.mem_map.mpr ⟨k, List.mem_filter.mpr ⟨h1, by simpa⟩, rfl⟩))
  · intro k s
    constructor
    · intro hk
      rcases List.mem_append.mp hk with hmap | hins
      · rcases List.mem_map.mp hmap with ⟨a, ha, heq⟩
        simp at heq
      · have himp := insert_phase_mem_imp factory hins
        have hmem := List.mem_filter.mp himp.1
        exact ⟨hmem.1, by simpa using hmem.2, himp.2⟩
    · rintro ⟨h1, h2, h3⟩
      refine List.mem_append.mpr (Or.inr ?_)
      exact (insert_phase_mem_iff factory hreadyIns k s).mpr
        ⟨List.mem_filter.mpr ⟨h1, by simpa⟩, h3⟩
  · refine List.Nodup.append ?_ ?_ ?_
    · exact (hprev.filter _).map fun a b h => by injection h
    · exact insert_phase_nodup factory (hnew.filter _)
    · intro ev h1 h2
      rcases List.mem_map.mp h1 with ⟨a, _, heq⟩
      rcases insert_phase_shape factory _ _ h2 with ⟨b, s, heq2⟩
      rw [← heq] at heq2
      simp at heq2
  · refine ⟨_, _, rfl, ?_, insert_phase_shape factory _⟩
    intro ev hev
    rcases List.mem_map.mp hev with ⟨a, _, heq⟩
    exact ⟨a, heq.symm⟩
  · intro rest
    rw [DynamicServiceStream.run_ticks]
    dsimp only
    rw [hT]

/-- Witness for C1 at a concrete tick: old snapshot `[0, 1, 2]`, new
snapshot `[1, 2, 3]`, every construction succeeding. -/
theorem c1_tick_edit_script_witness :
    (DynamicServiceStream.tick (fun k => (Except.ok (some k) : FactoryOutcome Unit Nat))
        ([0, 1, 2] : List Nat) (Except.ok [1, 2, 3])).2.2 = none ∧
    (DynamicServiceStream.tick (fun k => (Except.ok (some k) : FactoryOutcome Unit Nat))
        ([0, 1, 2] : List Nat) (Except.ok [1, 2, 3])).1.Nodup :=
  ⟨(c1_tick_edit_script (fun k => Except.ok (some k)) [0, 1, 2] [1, 2, 3]
      (by decide) (by decide) (fun k _ e h => by simp at h)).1,
   (c1_tick_edit_script (fun k => Except.ok (some k)) [0, 1, 2] [1, 2, 3]
      (by decide) (by decide) (fun k _ e h => by simp at h)).2.2.2.1⟩

/-- C2 fails on the code: with no tracked node and upstream snapshot
`[0]`, a failing construction call for node `0` leaves the tick's tracked
snapshot equal to the full new snapshot `[0]` (the claim demands that the
failed node remain absent from it), and the next tick with node `0` still
upstream emits no event at all - in particular no renewed `Insert` attempt
for node `0`, even though its construction would now succeed. -/
theorem c2_counterexample :
    (DynamicServiceStream.tick (fun _ => (Except.ok none : FactoryOutcome Unit Unit))
        ([] : List Nat) (Except.ok [0])).2.1 = [0] ∧
    (DynamicServiceStream.tick (fun _ => (Except.ok (some ()) : FactoryOutcome Unit Unit))
        ([0] : List Nat) (Except.ok [0])).1 = [] :=
  ⟨rfl, rfl⟩

/-- C2 amended: a node whose factory construction call fails is skipped
silently for that tick - no event for it and no abort of tick or stream -
but the tracked snapshot retained for the next tick is the complete
freshly fetched snapshot, which does include the failed node; hence on the
next tick where the node is still present upstream it lies in both
snapshots and is not treated as inserted again, whatever the factory would
then answer: construction is only re-attempted after the node has first
disappeared from a fetched snapshot. -/
theorem c2_failed_insert_tracked_not_retried {K S E : Type} [DecidableEq K]
    (factory factory2 : K → FactoryOutcome E S) (prev snew snext : List K) (k : K)
    (hk : factory k = Except.ok none) (hks : k ∈ snew)
    (hready : ∀ a ∈ snew, ∀ e : E, factory a ≠ Except.error e)
    (hknext : k ∈ snext) :
    (∀ s : S, Change.Insert k s ∉ (DynamicServiceStream.tick factory prev (Except.ok snew)).1) ∧
    (DynamicServiceStream.tick factory prev (Except.ok snew)).2.2 = none ∧
    (DynamicServiceStream.tick factory prev (Except.ok snew)).2.1 = snew ∧
    (∀ s : S, Change.Insert k s ∉ (DynamicServiceStream.tick factory2 snew (Except.ok snext)).1) := by
  have hreadyIns : ∀ a ∈ (snew.filter fun a => decide (a ∉ prev)), ∀ e : E,
      factory a ≠ Except.error e :=
    fun a ha e => hready a (List.mem_of_mem_filter ha) e
  have herr := insert_phase_err_none factory hreadyIns
  have hT := tick_ok_eq factory prev snew herr
  refine ⟨?_, ?_, ?_, ?_⟩
  case refine_2 => rw [hT]
  case refine_3 => rw [hT]
  · intro s hs
    rw [hT] at hs
    rcases List.mem_append.mp hs with hmap | hins
    · rcases List.mem_map.mp hmap with ⟨a, _, heq⟩
      simp at heq
    · have himp := insert_phase_mem_imp factory hins
      rw [himp.2] at hk
      simp at hk
  · intro s hs
    unfold DynamicServiceStream.tick at hs
    dsimp only at hs
    rcases hcase : (DynamicServiceStream.insert_phase factory2
        (snext.filter fun a => decide (a ∉ snew))).2 with _ | e
    all_goals rw [hcase] at hs
    all_goals rcases List.mem_append.mp hs with hmap | hins
    · rcases List.mem_map.mp hmap with ⟨a, _, heq⟩
      simp at heq
    · have himp := insert_phase_mem_imp factory2 hins
      have hmem := List.mem_filter.mp himp.1
      have hnot : k ∉ snew := by simpa using hmem.2
      exact hnot hks
    · rcases List.mem_map.mp hmap with ⟨a, _, heq⟩
      simp at heq
    · have himp := insert_phase_mem_imp factory2 hins
      have hmem := List.mem_filter.mp himp.1
      have hnot : k ∉ snew := by simpa using hmem.2
      exact hnot hks

/-- Witness for the amended C2: one node `0`, construction failing on the
first tick and succeeding on the second. -/
theorem c2_failed_insert_tracked_not_retried_witness :
    (∀ s : Unit, Change.Insert 0 s ∉
      (DynamicServiceStream.tick (fun _ => (Except.ok none : FactoryOutcome Unit Unit))
        ([] : List Nat) (Except.ok [0])).1) ∧
    (DynamicServiceStream.tick (fun _ => (Except.ok none : FactoryOutcome Unit Unit))
        ([] : List Nat) (Except.ok [0])).2.2 = none ∧
    (DynamicServiceStream.tick (fun _ => (Except.ok none : FactoryOutcome Unit Unit))
        ([] : List Nat) (Except.ok [0])).2.1 = [0] ∧
    (∀ s : Unit, Change.Insert 0 s ∉
      (DynamicServiceStream.tick (fun _ => (Except.ok (some ()) : FactoryOutcome Unit Unit))
        ([0] : List Nat) (Except.ok [0])).1) :=
  c2_failed_insert_tracked_not_retried (fun _ => Except.ok none) (fun _ => Except.ok (some ()))
    [] [0] [0] 0 rfl (by decide) (fun a _ e h => by simp at h) (by decide)

/-- C3: when exclusive access to the wrapped service is free, `poll_ready`
delegates the readiness check to the wrapped service and returns exactly
its result without waking the waker; when access is held by another
caller, it returns `Pending` without invoking the wrapped service at all
and wakes the calling task's waker to arrange a retry. -/
theorem c3_poll_ready_delegates_or_pends {E : Type} (inner_ready : Poll (Except E Unit)) :
    (SharedService.poll_ready LockState.free inner_ready).result = inner_ready ∧
    (SharedService.poll_ready LockState.free inner_ready).inner_polled = true ∧
    (SharedService.poll_ready LockState.free inner_ready).woke_waker = false ∧
    (SharedService.poll_ready LockState.held inner_ready).result = Poll.Pending ∧
    (SharedService.poll_ready LockState.held inner_ready).inner_polled = false ∧
    (SharedService.poll_ready LockState.held inner_ready).woke_waker = true :=
  ⟨rfl, rfl, rfl, rfl, rfl, rfl⟩

/-- C4: in the future returned by `SharedService::call`, write access is
acquired, the wrapped service's `call` is invoked strictly after the
acquisition and while the lock is held, the lock is released strictly
after the invocation, and the wrapped call's future is awaited strictly
after the release - so the lock is no longer held while the wrapped call
runs to completion. -/
theorem c4_call_releases_lock_before_await {Req : Type} (req : Req) :
    ∃ i j k l : Nat, i < j ∧ j < k ∧ k < l ∧
      (SharedService.call_trace req)[i]? = some CallStep.acquire_write ∧
      (SharedService.call_trace req)[j]? = some (CallStep.invoke_inner req) ∧
      (SharedService.call_trace req)[k]? = some CallStep.release_write ∧
      (SharedService.call_trace req)[l]? = some CallStep.await_future ∧
      (SharedService.call_trace req).length = 4 ∧
      write_lock_held_after (SharedService.call_trace req) j = true ∧
      write_lock_held_after (SharedService.call_trace req) l = false :=
  ⟨0, 1, 2, 3, Nat.zero_lt_one, Nat.lt_succ_self 1, Nat.lt_succ_self 2,
   rfl, rfl, rfl, rfl, rfl, rfl, rfl⟩

/-- C5: serializing a `Request` yields one flat object with the reserved
`@extra` id field and the payload's own fields coexisting at the top
level, the timeout never appearing (the serialization does not depend on
it); on the spec's literal input the rendered wire string is exactly the
expected one. -/
theorem c5_request_serializes_flat_without_timeout
    (id t t2 : Nat) (fields : List (String × Json)) (d : Json) :
    Request.serialize ⟨id, t, Json.obj fields⟩
      = some (Json.obj (("@extra", Json.str (uuid_to_string id)) :: fields)) ∧
    Request.serialize ⟨id, t, d⟩ = Request.serialize ⟨id, t2, d⟩ ∧
    (Request.serialize ⟨0x7431f198751440ff876c3e8ee0a311ba, 3,
        Json.obj [("data", Json.str "is flatten")]⟩).map Json.render
      = some "\x7b\"@extra\":\"7431f198-7514-40ff-876c-3e8ee0a311ba\",\"data\":\"is flatten\"\x7d" := by
  refine ⟨rfl, ?_, by rfl⟩
  cases d <;> rfl

/-- C8: the round trip runs its stages in the fixed order build request,
await readiness, submit, await response, deserialize - the stages that ran
always form a prefix of that order - and a failure at any stage is not
swallowed: the stage's own error value is returned unchanged as the
outcome, later stages do not run, and a fully successful run returns the
deserialized response after all five stages. -/
theorem c8_round_trip_stage_order_and_error_propagation {E R : Type}
    (into_request : Except E Request) (ready : Except E Unit)
    (call : Request → Except E Json) (deser : Json → Except E R)
    (e1 e2 e3 e4 : E) (req : Request) (json : Json) (resp : R) :
    (∃ n, (requestable_call into_request ready call deser).2 = round_trip_stages.take n) ∧
    (requestable_call into_request (Except.error e1) call deser).1 = Except.error e1 ∧
    (requestable_call (Except.error e2) (Except.ok ()) call deser).1 = Except.error e2 ∧
    (requestable_call (Except.ok req) (Except.ok ())
        (fun _ => (Except.error e3 : Except E Json)) deser).1 = Except.error e3 ∧
    (requestable_call (Except.ok req) (Except.ok ()) (fun _ => Except.ok json)
        (fun _ => (Except.error e4 : Except E R))).1 = Except.error e4 ∧
    requestable_call (Except.ok req) (Except.ok ()) (fun _ => Except.ok json)
        (fun _ => (Except.ok resp : Except E R)) = (Except.ok resp, round_trip_stages) := by
  refine ⟨?_, rfl, rfl, rfl, rfl, rfl⟩
  cases ready with
  | error e => exact ⟨2, rfl⟩
  | ok u =>
    cases into_request with
    | error e => exact ⟨2, rfl⟩
    | ok r =>
      cases hc : call r with
      | error e => exact ⟨4, by simp [requestable_call, hc, round_trip_stages]⟩
      | ok j =>
        cases hd : deser j with
        | error e => exact ⟨5, by simp [requestable_call, hc, hd, round_trip_stages]⟩
        | ok x => exact ⟨5, by simp [requestable_call, hc, hd, round_trip_stages]⟩

/-- C9 fails on the code as an absolute guarantee: the id of each request
is whatever 128-bit value the randomness source draws, with no collision
check anywhere; if the source repeats a value, two distinct live requests
(here with different payloads) carry equal identifiers. -/
theorem c9_counterexample :
    (build_requests (fun _ => 0) 0 [(Json.obj [], 3), (Json.null, 3)]).map Request.id
      = [0, 0] ∧
    (build_requests (fun _ => 0) 0 [(Json.obj [], 3), (Json.null, 3)]).map Request.data
      = [Json.obj [], Json.null] :=
  ⟨rfl, rfl⟩

/-- Every request in a `build_requests` batch carries as id the draw at
its own construction index. -/
theorem build_requests_mem_id {supply : UuidSupply} {n : Nat}
    {payloads : List (Json × Nat)} {r : Request}
    (h : r ∈ build_requests supply n payloads) :
    ∃ i, n ≤ i ∧ i < n + payloads.length ∧ r.id = new_v4 supply i := by
  induction payloads generalizing n with
  | nil => simp [build_requests] at h
  | cons p rest ih =>
    rcases p with ⟨d, t⟩
    rw [build_requests] at h
    rcases List.mem_cons.mp h with heq | hm
    · subst heq
      refine ⟨n, Nat.le_refl n, ?_, rfl⟩
      simp only [List.length_cons]
      omega
    · rcases ih hm with ⟨i, h1, h2, h3⟩
      refine ⟨i, Nat.le_trans (Nat.le_succ n) h1, ?_, h3⟩
      simp at h2 ⊢
      omega

/-- When the randomness draws below a bound `m` are pairwise distinct,
any batch of requests built from draws below `m` has pairwise distinct
ids. -/
theorem build_requests_pairwise_of_draws {supply : UuidSupply} {m : Nat}
    (hdraws : ∀ i, i < m → ∀ j, j < m → i ≠ j → new_v4 supply i ≠ new_v4 supply j) :
    ∀ (payloads : List (Json × Nat)) (n : Nat), n + payloads.length ≤ m →
      (build_requests supply n payloads).Pairwise fun r1 r2 => r1.id ≠ r2.id := by
  intro payloads
  induction payloads with
  | nil => intro n _; exact List.Pairwise.nil
  | cons p rest ih =>
    intro n hb
    rcases p with ⟨d, t⟩
    simp only [List.length_cons] at hb
    rw [build_requests]
    refine List.Pairwise.cons ?_ (ih (n + 1) (by omega))
    intro r hr
    rcases build_requests_mem_id hr with ⟨i, h1, h2, h3⟩
    show new_v4 supply n ≠ r.id
    rw [h3]
    exact hdraws n (by omega) i (by omega) (by omega)

/-- C9 amended: each `Request` construction uses the next 128-bit draw of
the randomness source, unchecked, as its id (`Request::with_timeout` on a
successfully serialized payload), so the identifiers of any collection of
live requests are pairwise distinct provided the draws backing them are
pairwise distinct - the code itself performs no collision avoidance. -/
theorem c9_live_ids_distinct_iff_draws_distinct {E : Type}
    (supply : UuidSupply) (payloads : List (Json × Nat)) (n : Nat)
    (hdraws : ∀ i, i < n + payloads.length → ∀ j, j < n + payloads.length →
      i ≠ j → new_v4 supply i ≠ new_v4 supply j) :
    (∀ (d : Json) (t i : Nat),
      Request.with_timeout (E := E) supply i (Except.ok d) t
        = Except.ok ⟨new_v4 supply i, t, d⟩) ∧
    (build_requests supply n payloads).Pairwise fun r1 r2 => r1.id ≠ r2.id :=
  ⟨fun d t i => rfl,
   build_requests_pairwise_of_draws hdraws payloads n (Nat.le_refl _)⟩

/-- Witness for the amended C9: the identity draw sequence, three requests
built from draws 0, 1, 2. -/
theorem c9_live_ids_distinct_witness :
    (∀ (d : Json) (t i : Nat),
      Request.with_timeout (E := Unit) (fun k => k) i (Except.ok d) t
        = Except.ok ⟨new_v4 (fun k => k) i, t, d⟩) ∧
    (build_requests (fun k => k) 0
        [(Json.null, 3), (Json.obj [], 5), (Json.bool true, 7)]).Pairwise
      (fun r1 r2 => r1.id ≠ r2.id) :=
  c9_live_ids_distinct_iff_draws_distinct (fun k => k)
    [(Json.null, 3), (Json.obj [], 5), (Json.bool true, 7)] 0 (by decide)

/-- C10 fails on the code as an absolute guarantee: `with_new_id` uses the
next 128-bit draw of the randomness source, unchecked, so when the source
happens to draw the original's id again, the "new id" equals the old
one. -/
theorem c10_counterexample :
    (Request.with_new_id (fun _ => 7) 0 ⟨7, 3, Json.obj []⟩).id
      = (⟨7, 3, Json.obj []⟩ : Request).id :=
  rfl

/-- C10 amended: the request produced by `with_new_id` always keeps the
original's payload and timeout unchanged, and its id is exactly the fresh
128-bit draw of the randomness source - hence it differs from the
original's id whenever that draw differs, the code performing no check. -/
theorem c10_with_new_id_frame (supply : UuidSupply) (n : Nat) (r : Request) :
    (Request.with_new_id supply n r).data = r.data ∧
    (Request.with_new_id supply n r).timeout = r.timeout ∧
    (Request.with_new_id supply n r).id = new_v4 supply n ∧
    (new_v4 supply n ≠ r.id → (Request.with_new_id supply n r).id ≠ r.id) :=
  ⟨rfl, rfl, rfl, fun h => h⟩

/-- Witness for the amended C10: original request with id 0, fresh draw 1. -/
theorem c10_with_new_id_frame_witness :
    (Request.with_new_id (fun _ => 1) 0 ⟨0, 3, Json.null⟩).data = Json.null ∧
    (Request.with_new_id (fun _ => 1) 0 ⟨0, 3, Json.null⟩).timeout = 3 ∧
    (Request.with_new_id (fun _ => 1) 0 ⟨0, 3, Json.null⟩).id ≠ (⟨0, 3, Json.null⟩ : Request).id :=
  ⟨(c10_with_new_id_frame (fun _ => 1) 0 ⟨0, 3, Json.null⟩).1,
   (c10_with_new_id_frame (fun _ => 1) 0 ⟨0, 3, Json.null⟩).2.1,
   (c10_with_new_id_frame (fun _ => 1) 0 ⟨0, 3, Json.null⟩).2.2.2 (by decide)⟩
